import Mathlib

/-!
Shallow embedding of the decision loop of `src/main.rs` (brc20-trading-bot).

The embedded core is the body of the `tokio::select!` loop (lines 162-226):
the supply-check branch driven by `timer1` (lines 164-189) and the buy-check
branch driven by `timer2` (lines 191-224), together with the floor-price
schedule and rotation index (lines 150-153, 192, 223).

The remote listing gateway is modelled as a pure environment
`env : Nat → ListResponse` mapping a page number to the response of
`get_token_list(token, page, 50)`.  Each tick function also returns the list
of page numbers it fetched, in order, so that claims about the number and
identity of remote fetches can be stated.
-/

/-- Modelled from the spec: the `types` module of the repository is not under
`src/`; §6 of the spec gives the listing-item shape
`{amount: string, price: string}`, matching the uses `item.amount` (line 172)
and `items[i].price` (line 202) in `main.rs`. -/
structure ListingItem where
  amount : String
  price : String
deriving DecidableEq

/-- Modelled from the spec: the `types` module is not under `src/`; §6 gives
`fetchListingPage -> {totalCount: integer, items: optional ordered sequence}`,
matching `list_res.total` and `list_res.data` (an `Option<Vec<_>>`, since
`main.rs` calls `.unwrap()` on it at lines 171/180 and matches
`if let Some(items)` at lines 200/216). -/
structure ListResponse where
  total : Nat
  data : Option (List ListingItem)
deriving DecidableEq

/-- `2^64`, the modulus of Rust's `u64`. -/
def u64Mod : Nat := 18446744073709551616

/-- JSON whitespace (space, tab, line feed, carriage return), which
`serde_json` skips before and after a top-level value. -/
def isJsonWs (c : Char) : Bool :=
  c == ' ' || c == '\t' || c == '\n' || c == '\r'

/-- Embeds `serde_json::from_str::<u64>` applied to an amount/price string
(lines 172, 181, 202): after discarding surrounding JSON whitespace, the
string must be a JSON unsigned integer — nonempty, all decimal digits, no
leading zero unless it is exactly "0" — whose value fits in 64 bits; anything
else is a parse error, propagated by `?` in the source. -/
def parseU64 (s : String) : Option Nat :=
  let cs := ((s.data.dropWhile isJsonWs).reverse.dropWhile isJsonWs).reverse
  if cs = [] then none
  else if ¬ cs.all Char.isDigit then none
  else if 1 < cs.length ∧ cs.head? = some '0' then none
  else
    let n := cs.foldl (fun a c => a * 10 + (c.toNat - 48)) 0
    if n < u64Mod then some n else none

/-- The fixed floor-price schedule, `floor_prices` (lines 150-152). -/
def floor_prices : List Nat :=
  [123000000, 250000000, 450000000, 200000000, 220000000, 300000000]

/-- The schedule offset actually used at line 192:
`price_index % floor_prices.len()`. -/
def activeIndex (price_index : Nat) : Nat :=
  price_index % floor_prices.length

/-- `floor_prices[price_index % floor_prices.len()]` (line 192).  The index is
reduced modulo the (nonzero) schedule length, so the lookup is total. -/
def curFloorPrice (price_index : Nat) : Nat :=
  floor_prices.get ⟨price_index % floor_prices.length, Nat.mod_lt _ (by decide)⟩

/-- `price_index += 1` (line 223): a `usize` increment, wrapping modulo 2^64
as in a release build — the same semantics `sumPage` adopts for `sum`. -/
def rotAdvance (price_index : Nat) : Nat := (price_index + 1) % u64Mod

/-- The summation loop `for item in items { sum += from_str::<u64>(&item.amount)? }`
(lines 171-173, 180-182): `none` when some amount fails to parse (the `?`
aborts the branch and the partial sum is discarded), otherwise the running
`u64` sum (wrapping, as in a release build). -/
def sumPage (acc : Nat) : List ListingItem → Option Nat
  | [] => some acc
  | it :: rest =>
    match parseU64 it.amount with
    | none => none
    | some v => sumPage ((acc + v) % u64Mod) rest

/-- Errors that abort the supply-check branch mid-pass. -/
inductive AggErr where
  /-- `list_res.data.unwrap()` on `None` (lines 171, 180): a panic. -/
  | unwrapNone (page : Nat)
  /-- `from_str::<u64>` failed on an amount string. -/
  | badAmount (page : Nat)
deriving DecidableEq

/-- The page loop of the supply-check branch, `for page in 1..pages`
(lines 175-183), over the explicit list of loop page numbers, threading the
running sum and recording each fetched page. -/
def aggLoop (env : Nat → ListResponse) : List Nat → Nat → Except AggErr Nat × List Nat
  | [], acc => (Except.ok acc, [])
  | p :: ps, acc =>
    if (env p).total = 0 then
      let (res, log) := aggLoop env ps acc
      (res, p :: log)
    else
      match (env p).data with
      | none => (Except.error (AggErr.unwrapNone p), [p])
      | some items =>
        match sumPage acc items with
        | none => (Except.error (AggErr.badAmount p), [p])
        | some acc2 =>
          let (res, log) := aggLoop env ps acc2
          (res, p :: log)

/-- How one supply-check tick ends. -/
inductive AggOutcome where
  /-- `total == 0` on page 1: print "[List] no lists" and `continue` (166-169). -/
  | noLists
  /-- panic: `.unwrap()` of an absent `data` field on the given page. -/
  | unwrapNone (page : Nat)
  /-- parse error on an amount string of the given page; `?` aborts. -/
  | badAmount (page : Nat)
  /-- `sum >= list_sum_amount`: no deficit, `continue` (185-187). -/
  | enough (sum : Nat)
  /-- deficit: "[List] add lists" then the unimplemented `todo!()` (188-189). -/
  | todoAddLists (sum : Nat)
deriving DecidableEq

/-- One supply-check (aggregation) tick, `timer1` branch, lines 164-189.
`threshold` is `list_sum_amount` (line 146).  Returns the outcome and the
ordered list of fetched page numbers.  Note the source computes
`pages = list_res.total / 50 + 1` (line 174) and then loops
`for page in 1..pages` (line 175), i.e. over pages `1 .. pages-1`. -/
def supplyTick (env : Nat → ListResponse) (threshold : Nat) : AggOutcome × List Nat :=
  if (env 1).total = 0 then (AggOutcome.noLists, [1])
  else
    match (env 1).data with
    | none => (AggOutcome.unwrapNone 1, [1])
    | some items =>
      match sumPage 0 items with
      | none => (AggOutcome.badAmount 1, [1])
      | some s0 =>
        match aggLoop env (List.range' 1 ((env 1).total / 50 + 1 - 1)) s0 with
        | (Except.error (AggErr.unwrapNone p), log) => (AggOutcome.unwrapNone p, 1 :: log)
        | (Except.error (AggErr.badAmount p), log) => (AggOutcome.badAmount p, 1 :: log)
        | (Except.ok s, log) =>
          (if threshold ≤ s then AggOutcome.enough s else AggOutcome.todoAddLists s, 1 :: log)

/-- Result of the page-1 price scan of the buy-check branch. -/
inductive ScanResult where
  /-- every scanned price parsed and was above the floor price. -/
  | done
  /-- `from_str::<u64>` failed on a price string; `?` aborts (line 202). -/
  | badPrice
  /-- some price was `<= cur_floor_price`: the branch halts at `todo!()` (203-205). -/
  | todoBuy
deriving DecidableEq

/-- The page-1 item scan of the buy-check branch (lines 201-206): parse each
price in order; the first price `<= cur_floor_price` reaches the unimplemented
buy action `todo!()`, which halts the branch. -/
def scanPrices (thr : Nat) : List ListingItem → ScanResult
  | [] => ScanResult.done
  | it :: rest =>
    match parseU64 it.price with
    | none => ScanResult.badPrice
    | some p => if p ≤ thr then ScanResult.todoBuy else scanPrices thr rest

/-- `if let Some(items) = list_res.data { ... }` around the page-1 scan
(line 200): an absent `data` field skips the scan entirely. -/
def scanPage1 (thr : Nat) : Option (List ListingItem) → ScanResult
  | none => ScanResult.done
  | some items => scanPrices thr items

/-- The page loop of the buy-check branch, `for page in 1..pages`
(lines 208-221).  For a fetched page with nonzero `total` and a present,
non-empty `items`, the loop body runs `todo!()` on the first item (218) —
no price is parsed or compared — halting the branch; returns the page where
that happened (if any) and the fetch log. -/
def buyLoop (env : Nat → ListResponse) : List Nat → Option Nat × List Nat
  | [] => (none, [])
  | p :: ps =>
    if (env p).total = 0 then
      let (res, log) := buyLoop env ps
      (res, p :: log)
    else
      match (env p).data with
      | none =>
        let (res, log) := buyLoop env ps
        (res, p :: log)
      | some items =>
        if items.isEmpty then
          let (res, log) := buyLoop env ps
          (res, p :: log)
        else (some p, [p])

/-- How one buy-check tick ends. -/
inductive BuyOutcome where
  /-- `total == 0` on page 1: print "[buy] no lists" and `continue` (195-198). -/
  | noLists
  /-- parse error on a page-1 price string; `?` aborts. -/
  | badPrice
  /-- a page-1 item was buy-eligible: branch halts at `todo!()` (204). -/
  | todoBuy
  /-- the page loop hit `todo!()` (218) on the given fetched page. -/
  | todoPage (page : Nat)
  /-- the tick ran to completion and executed `price_index += 1` (223). -/
  | completed
deriving DecidableEq

/-- One buy-check tick, `timer2` branch, lines 191-224.  Takes and returns the
rotation index `price_index`; also returns the ordered fetch log.  The source
reads `cur_floor_price` (192), fetches page 1 (194), short-circuits on
`total == 0` (195-198) *before* the `price_index += 1` at line 223, computes
`pages = total / 50 + 1` (199), scans page 1 (200-207), runs the page loop
over `1..pages` (208-221), and only then advances `price_index` (223) — a
wrapping `usize` increment, as in `rotAdvance`. -/
def buyTick (env : Nat → ListResponse) (price_index : Nat) :
    BuyOutcome × Nat × List Nat :=
  if (env 1).total = 0 then (BuyOutcome.noLists, price_index, [1])
  else
    match scanPage1 (curFloorPrice price_index) (env 1).data with
    | ScanResult.badPrice => (BuyOutcome.badPrice, price_index, [1])
    | ScanResult.todoBuy => (BuyOutcome.todoBuy, price_index, [1])
    | ScanResult.done =>
      match buyLoop env (List.range' 1 ((env 1).total / 50 + 1 - 1)) with
      | (some p, log) => (BuyOutcome.todoPage p, price_index, 1 :: log)
      | (none, log) => (BuyOutcome.completed, (price_index + 1) % u64Mod, 1 :: log)

/-! ### Concrete environments used by the theorems -/

/-- A gateway that always reports an empty listing, with the items field absent. -/
def zeroEnv : Nat → ListResponse := fun _ => ⟨0, none⟩

/-- `totalCount = 100` on every page, each page holding one zero-amount item. -/
def env100 : Nat → ListResponse := fun _ => ⟨100, some [⟨"0", "0"⟩]⟩

/-- The §8 aggregation scenario: `totalCount = 120`; page 1 sums to 10000,
page 2 to 8000, page 3 to 500. -/
def envC2 : Nat → ListResponse := fun p =>
  if p = 1 then ⟨120, some [⟨"10000", "1"⟩]⟩
  else if p = 2 then ⟨120, some [⟨"8000", "1"⟩]⟩
  else ⟨120, some [⟨"500", "1"⟩]⟩

/-- `totalCount = 120`; page 1 holds one item priced above every threshold,
later pages hold an item whose price string is not even numeric. -/
def envC6 : Nat → ListResponse := fun p =>
  if p = 1 then ⟨120, some [⟨"1", "999999999"⟩]⟩
  else ⟨120, some [⟨"1", "x"⟩]⟩

/-- A single listing priced 200000000 (below the index-1 threshold 250000000). -/
def envLow : Nat → ListResponse := fun _ => ⟨1, some [⟨"1", "200000000"⟩]⟩

/-- A single listing priced 300000000 (above the index-1 threshold 250000000). -/
def envHigh : Nat → ListResponse := fun _ => ⟨1, some [⟨"1", "300000000"⟩]⟩

/-- A listing whose amount and price strings are both malformed. -/
def envBad : Nat → ListResponse := fun _ => ⟨10, some [⟨"abc", "abc"⟩]⟩

/-- `totalCount = 120`; page 1 parses cleanly (amount 5), page 2 holds an
item with the malformed amount "oops". -/
def envBadPage2 : Nat → ListResponse := fun p =>
  if p = 1 then ⟨120, some [⟨"5", "999999999"⟩]⟩
  else if p = 2 then ⟨120, some [⟨"oops", "1"⟩]⟩
  else ⟨120, some [⟨"1", "1"⟩]⟩

/-- `totalCount = 60` with the items field absent on every page. -/
def envNoData : Nat → ListResponse := fun _ => ⟨60, none⟩

/-! ### Helper lemmas -/

/-- Iterating the wrapping `price_index += 1` k times adds k to the index as
long as the `u64` counter does not wrap. -/
theorem rotAdvance_iterate (k start : Nat) (h : start + k < u64Mod) :
    rotAdvance^[k] start = start + k := by
  induction k generalizing start with
  | zero => rfl
  | succ n ih =>
    rw [Function.iterate_succ_apply]
    have h1 : rotAdvance start = start + 1 := by
      simp only [rotAdvance]
      exact Nat.mod_eq_of_lt (by omega)
    rw [h1, ih (start + 1) (by omega)]
    omega

/-- If some item of a page has an unparseable amount, the whole page sum fails,
whatever the accumulator: the partial sum is discarded. -/
theorem sumPage_none_of_mem : ∀ (items : List ListingItem) (acc : Nat)
    (bad : ListingItem), bad ∈ items → parseU64 bad.amount = none →
    sumPage acc items = none := by
  intro items
  induction items with
  | nil => intro acc bad h; cases h
  | cons it rest ih =>
    intro acc bad hmem hbad
    rcases List.mem_cons.mp hmem with h | h
    · subst h
      simp [sumPage, hbad]
    · cases hp : parseU64 it.amount with
      | none => simp [sumPage, hp]
      | some v =>
        simp only [sumPage, hp]
        exact ih _ bad h hbad

/-- If every item before `bad` parses to a price above the threshold and
`bad`'s price string does not parse, the page-1 scan reaches `bad` and fails
with a parse error. -/
theorem scanPrices_reaches_bad : ∀ (pre : List ListingItem) (thr : Nat)
    (bad : ListingItem) (rest : List ListingItem),
    (∀ x ∈ pre, ∃ v, parseU64 x.price = some v ∧ thr < v) →
    parseU64 bad.price = none →
    scanPrices thr (pre ++ bad :: rest) = ScanResult.badPrice := by
  intro pre
  induction pre with
  | nil =>
    intro thr bad rest hpre hbad
    simp [scanPrices, hbad]
  | cons x xs ih =>
    intro thr bad rest hpre hbad
    obtain ⟨v, hv, hlt⟩ := hpre x (List.mem_cons_self x xs)
    simp only [List.cons_append, scanPrices, hv]
    rw [if_neg (Nat.not_le.mpr hlt)]
    exact ih thr bad rest (fun y hy => hpre y (List.mem_cons_of_mem x hy)) hbad

/-- When the gateway never includes an items field, the buy-check page loop
walks all its pages without halting (the `if let Some` simply skips). -/
theorem buyLoop_of_data_none (env : Nat → ListResponse)
    (h : ∀ p, (env p).data = none) : ∀ ps, buyLoop env ps = (none, ps) := by
  intro ps
  induction ps with
  | nil => rfl
  | cons p ps ih =>
    by_cases h0 : (env p).total = 0
    · simp [buyLoop, h0, ih]
    · simp [buyLoop, h0, h p, ih]

/-- One-step unfolding of `aggLoop` on a cons cell, with the destructuring
`let` written through pair projections. -/
theorem aggLoop_cons (env : Nat → ListResponse) (q : Nat) (qs : List Nat)
    (acc : Nat) :
    aggLoop env (q :: qs) acc =
      if (env q).total = 0 then
        ((aggLoop env qs acc).1, q :: (aggLoop env qs acc).2)
      else
        match (env q).data with
        | none => (Except.error (AggErr.unwrapNone q), [q])
        | some items =>
          match sumPage acc items with
          | none => (Except.error (AggErr.badAmount q), [q])
          | some acc2 =>
            ((aggLoop env qs acc2).1, q :: (aggLoop env qs acc2).2) := rfl

/-- If earlier loop pages process cleanly to partial sum `acc2`, a loop page
`p` with nonzero total whose items include an unparseable amount fails the
whole aggregation loop with a parse error at `p`, discarding `acc2`. -/
theorem aggLoop_bad_page (env : Nat → ListResponse) :
    ∀ (pre : List Nat) (acc acc2 : Nat) (log : List Nat) (p : Nat)
      (post : List Nat) (items : List ListingItem) (bad : ListingItem),
    aggLoop env pre acc = (Except.ok acc2, log) →
    (env p).total ≠ 0 → (env p).data = some items →
    bad ∈ items → parseU64 bad.amount = none →
    aggLoop env (pre ++ p :: post) acc =
      (Except.error (AggErr.badAmount p), log ++ [p]) := by
  intro pre
  induction pre with
  | nil =>
    intro acc acc2 log p post items bad h1 hp0 hpd hmem hbad
    have hs : sumPage acc items = none := sumPage_none_of_mem items acc bad hmem hbad
    simp only [aggLoop, Prod.mk.injEq] at h1
    obtain ⟨-, hlog⟩ := h1
    subst hlog
    simp [aggLoop, hp0, hpd, hs]
  | cons q qs ih =>
    intro acc acc2 log p post items bad h1 hp0 hpd hmem hbad
    rw [List.cons_append]
    by_cases h0 : (env q).total = 0
    · rw [aggLoop_cons, if_pos h0] at h1
      cases hq : aggLoop env qs acc with
      | mk res l =>
        rw [hq] at h1
        simp only [Prod.mk.injEq] at h1
        obtain ⟨hres, hlog⟩ := h1
        subst hres
        subst hlog
        rw [aggLoop_cons, if_pos h0,
          ih acc acc2 l p post items bad hq hp0 hpd hmem hbad]
        simp
    · rw [aggLoop_cons, if_neg h0] at h1
      cases hqd : (env q).data with
      | none =>
        simp only [hqd] at h1
        simp at h1
      | some qItems =>
        simp only [hqd] at h1
        cases hqs : sumPage acc qItems with
        | none =>
          simp only [hqs] at h1
          simp at h1
        | some acc3 =>
          simp only [hqs] at h1
          cases hq : aggLoop env qs acc3 with
          | mk res l =>
            rw [hq] at h1
            simp only [Prod.mk.injEq] at h1
            obtain ⟨hres, hlog⟩ := h1
            subst hres
            subst hlog
            rw [aggLoop_cons, if_neg h0]
            simp only [hqd, hqs,
              ih acc3 acc2 l p post items bad hq hp0 hpd hmem hbad]
            simp


/-! ### Claim theorems -/

/-- Claim C1: the spec demands that one aggregation pass fetch a set of pages
covering every listed item exactly once, with `totalCount = 100`,
`pageSize = 50` yielding exactly 2 page fetches.  The code instead computes
`pages = total/50 + 1` and loops `for page in 1..pages` after already
fetching page 1, so at `totalCount = 100` it performs 3 fetches with page 1
fetched twice (fetch log `[1, 1, 2]`). -/
theorem C1_pagination_fetch_log :
    supplyTick env100 0 = (AggOutcome.enough 0, [1, 1, 2]) ∧
    (supplyTick env100 0).2.length = 3 ∧ ¬ (supplyTick env100 0).2.Nodup :=
  ⟨rfl, rfl, by decide⟩

/-- Claim C2: in the §8 scenario (`totalCount = 120`, page sums 10000, 8000,
500) the spec demands `total_amount = 18500`.  The code sums page 1 twice and
never fetches page 3, producing 28000: with threshold 30000 the tick reports a
deficit at sum 28000, with threshold 28000 it reports enough at sum 28000, and
28000 ≠ 18500. -/
theorem C2_aggregate_scenario :
    supplyTick envC2 30000 = (AggOutcome.todoAddLists 28000, [1, 1, 2]) ∧
    supplyTick envC2 28000 = (AggOutcome.enough 28000, [1, 1, 2]) ∧
    (28000 : Nat) ≠ 18500 :=
  ⟨rfl, rfl, by decide⟩

/-- Claim C3 (counterexample): the claim says every buy-check tick advances
the rotation index by exactly one, even when the first page reports
`totalCount == 0`.  On a zero-total tick at index 5 the branch `continue`s
before `price_index += 1`, so the index stays 5 instead of becoming 6. -/
theorem C3_zero_total_no_advance :
    buyTick zeroEnv 5 = (BuyOutcome.noLists, 5, [1]) ∧ (5 : Nat) ≠ 5 + 1 :=
  ⟨rfl, by decide⟩

/-- Claim C3 (amended): a buy-check tick advances the rotation index by
exactly one — as the wrapping `usize` increment `(i + 1) mod 2^64` — when it
runs to completion, and a tick whose first page reports `totalCount == 0`
exits early with the index unchanged. -/
theorem C3_advance_iff_completed (env : Nat → ListResponse) (i : Nat) :
    ((buyTick env i).1 = BuyOutcome.completed →
      (buyTick env i).2.1 = (i + 1) % u64Mod) ∧
    ((env 1).total = 0 → buyTick env i = (BuyOutcome.noLists, i, [1])) := by
  constructor
  · unfold buyTick
    split
    · simp
    · split
      · simp
      · simp
      · split <;> simp
  · intro h
    simp [buyTick, h]

/-- Claim C3 (witness): a completed tick at index 1 yields index 2; a
zero-total tick at index 3 leaves the index at 3. -/
theorem C3_advance_witness :
    (buyTick envHigh 1).2.1 = (1 + 1) % u64Mod ∧
    buyTick zeroEnv 3 = (BuyOutcome.noLists, 3, [1]) :=
  ⟨(C3_advance_iff_completed envHigh 1).1 rfl,
   (C3_advance_iff_completed zeroEnv 3).2 rfl⟩

/-- Claim C4 (counterexample): the claim's law `active index = (start + k)
mod L` for arbitrarily many advances fails at the `u64` wrap: one advance
from 2^64 - 1 wraps the counter to 0, whose active offset is 0, while
`(2^64 - 1 + 1) mod 6 = 4` (since 2^64 ≡ 4 mod 6). -/
theorem C4_wrap_no_advance :
    activeIndex (rotAdvance^[1] (u64Mod - 1)) = 0 ∧
    ((u64Mod - 1) + 1) % floor_prices.length = 4 ∧ (0 : Nat) ≠ 4 :=
  ⟨rfl, by decide, by decide⟩

/-- Claim C4 (amended): as long as the `u64` rotation counter does not wrap
(`start + k < 2^64`), after k sequential advances from `start` the active
schedule offset is `(start + k) mod L`; from the initial index 1 with L = 6
the successive ticks select offsets 1, 2, 3, 4, 5, 0, 1, 2. -/
theorem C4_rotation_cycle (start k : Nat) (h : start + k < u64Mod) :
    activeIndex (rotAdvance^[k] start) = (start + k) % floor_prices.length ∧
    (List.range 8).map (fun j => activeIndex (rotAdvance^[j] 1)) =
      [1, 2, 3, 4, 5, 0, 1, 2] := by
  constructor
  · rw [rotAdvance_iterate k start h]
    rfl
  · decide

/-- Claim C4 (witness): six advances from index 1 land on active offset
`7 mod 6 = 1`, and the first eight ticks select 1, 2, 3, 4, 5, 0, 1, 2. -/
theorem C4_rotation_cycle_witness :
    activeIndex (rotAdvance^[6] 1) = (1 + 6) % floor_prices.length ∧
    (List.range 8).map (fun j => activeIndex (rotAdvance^[j] 1)) =
      [1, 2, 3, 4, 5, 0, 1, 2] :=
  C4_rotation_cycle 1 6 (by decide)

/-- Claim C5: a listing item whose amount (supply branch, page 1 or any loop
page) or price (buy branch) string does not parse as a u64 makes the pass
that encounters it fail with a parse error, discarding any partial sum —
never a silent zero. -/
theorem C5_parse_failure_aborts (env : Nat → ListResponse) (threshold i : Nat) :
    (∀ items bad, (env 1).total ≠ 0 → (env 1).data = some items →
      bad ∈ items → parseU64 bad.amount = none →
      supplyTick env threshold = (AggOutcome.badAmount 1, [1])) ∧
    (∀ items1 s0 pre p post acc2 log items bad,
      (env 1).total ≠ 0 → (env 1).data = some items1 →
      sumPage 0 items1 = some s0 →
      List.range' 1 ((env 1).total / 50 + 1 - 1) = pre ++ p :: post →
      aggLoop env pre s0 = (Except.ok acc2, log) →
      (env p).total ≠ 0 → (env p).data = some items →
      bad ∈ items → parseU64 bad.amount = none →
      supplyTick env threshold = (AggOutcome.badAmount p, 1 :: (log ++ [p]))) ∧
    (∀ pre bad rest, (env 1).total ≠ 0 →
      (env 1).data = some (pre ++ bad :: rest) →
      (∀ x ∈ pre, ∃ v, parseU64 x.price = some v ∧ curFloorPrice i < v) →
      parseU64 bad.price = none →
      buyTick env i = (BuyOutcome.badPrice, i, [1])) := by
  refine ⟨?_, ?_, ?_⟩
  · intro items bad h0 hdata hmem hbad
    have hs : sumPage 0 items = none := sumPage_none_of_mem items 0 bad hmem hbad
    simp [supplyTick, h0, hdata, hs]
  · intro items1 s0 pre p post acc2 log items bad h0 hdata hs0 hrange hpre hp0 hpd hmem hbad
    have hl : aggLoop env (pre ++ p :: post) s0 =
        (Except.error (AggErr.badAmount p), log ++ [p]) :=
      aggLoop_bad_page env pre s0 acc2 log p post items bad hpre hp0 hpd hmem hbad
    simp only [Nat.add_sub_cancel] at hrange
    simp [supplyTick, h0, hdata, hs0, hrange, hl]
  · intro pre bad rest h0 hdata hpre hbad
    have hs : scanPrices (curFloorPrice i) (pre ++ bad :: rest) = ScanResult.badPrice :=
      scanPrices_reaches_bad pre (curFloorPrice i) bad rest hpre hbad
    simp [buyTick, h0, hdata, scanPage1, hs]

/-- Claim C5 (witness): a page-1 item with amount "abc" aborts the supply
tick with a page-1 parse error; a loop-page item with amount "oops" aborts it
with a page-2 parse error after page 1 summed cleanly; a page-1 item with
price "abc" aborts the buy tick with a parse error. -/
theorem C5_parse_failure_witness :
    supplyTick envBad 0 = (AggOutcome.badAmount 1, [1]) ∧
    supplyTick envBadPage2 0 = (AggOutcome.badAmount 2, [1, 1, 2]) ∧
    buyTick envBad 3 = (BuyOutcome.badPrice, 3, [1]) :=
  ⟨(C5_parse_failure_aborts envBad 0 3).1 [⟨"abc", "abc"⟩] ⟨"abc", "abc"⟩
      (by decide) rfl (by decide) (by decide),
   (C5_parse_failure_aborts envBadPage2 0 3).2.1 [⟨"5", "999999999"⟩] 5
      [1] 2 [] 10 [1] [⟨"oops", "1"⟩] ⟨"oops", "1"⟩
      (by decide) rfl (by decide) (by decide) rfl (by decide) rfl
      (by decide) (by decide),
   (C5_parse_failure_aborts envBad 0 3).2.2 [] ⟨"abc", "abc"⟩ []
      (by decide) rfl (by simp) (by decide)⟩

/-- Claim C6: the spec demands that items on pages 2..pageCount get the same
price-vs-threshold comparison as page 1.  In the code the subsequent-page loop
body is `todo!()` per item with no price parse or comparison: with a page-1
item priced above the threshold and a later-page item whose price string "x"
is not even numeric, the tick halts at the placeholder on the first non-empty
loop page (a re-fetch of page 1, since the loop runs `1..pages`) and no parse
error is ever raised for the later page. -/
theorem C6_no_comparison_on_later_pages :
    buyTick envC6 1 = (BuyOutcome.todoPage 1, 1, [1, 1]) ∧
    (buyTick envC6 1).1 ≠ BuyOutcome.badPrice ∧
    parseU64 "x" = none :=
  ⟨rfl, by decide, by decide⟩

/-- Claim C7: with the fixed schedule at rotation index 1 the threshold is
250000000; a page-1 listing priced 200000000 is classified buy-eligible
(the branch reaches the buy placeholder) and one priced 300000000 is not
(the tick completes); in general the page-1 scan enters the buy branch at an
item iff its parsed price is ≤ the current threshold, and otherwise moves on
exactly as if the item were absent. -/
theorem C7_page1_eligibility (it : ListingItem) (rest : List ListingItem)
    (thr v : Nat) (hv : parseU64 it.price = some v) :
    curFloorPrice 1 = 250000000 ∧
    buyTick envLow 1 = (BuyOutcome.todoBuy, 1, [1]) ∧
    buyTick envHigh 1 = (BuyOutcome.completed, 2, [1]) ∧
    (v ≤ thr → scanPrices thr (it :: rest) = ScanResult.todoBuy) ∧
    (thr < v → scanPrices thr (it :: rest) = scanPrices thr rest) := by
  refine ⟨rfl, rfl, rfl, ?_, ?_⟩
  · intro h
    simp [scanPrices, hv, if_pos h]
  · intro h
    simp [scanPrices, hv, if_neg (Nat.not_le.mpr h)]

/-- Claim C7 (witness): at threshold 250000000, a single item priced
200000000 triggers the buy branch and one priced 300000000 is skipped. -/
theorem C7_page1_eligibility_witness :
    scanPrices 250000000 [⟨"1", "200000000"⟩] = ScanResult.todoBuy ∧
    scanPrices 250000000 [⟨"1", "300000000"⟩] = scanPrices 250000000 [] :=
  ⟨(C7_page1_eligibility ⟨"1", "200000000"⟩ [] 250000000 200000000
      (by decide)).2.2.2.1 (by decide),
   (C7_page1_eligibility ⟨"1", "300000000"⟩ [] 250000000 300000000
      (by decide)).2.2.2.2 (by decide)⟩

/-- Claim C8: when the first page reports `totalCount == 0`, both branches
return immediately with only that single page fetched, no error outcome, and
no dependence on the (possibly absent) items field. -/
theorem C8_zero_total_short_circuits (env : Nat → ListResponse)
    (threshold i : Nat) (h : (env 1).total = 0) :
    supplyTick env threshold = (AggOutcome.noLists, [1]) ∧
    buyTick env i = (BuyOutcome.noLists, i, [1]) := by
  constructor
  · simp [supplyTick, h]
  · simp [buyTick, h]

/-- Claim C8 (witness): a gateway reporting total 0 with the items field
absent short-circuits both ticks without a crash. -/
theorem C8_zero_total_witness :
    supplyTick zeroEnv 7 = (AggOutcome.noLists, [1]) ∧
    buyTick zeroEnv 2 = (BuyOutcome.noLists, 2, [1]) :=
  C8_zero_total_short_circuits zeroEnv 7 2 rfl

/-- Claim C9: for every value of the rotation counter, the schedule offset in
use is reduced modulo the schedule length, hence in bounds, and the lookup of
the current floor price succeeds (never out of bounds, never a panic). -/
theorem C9_schedule_lookup_safe (i : Nat) :
    i % floor_prices.length < floor_prices.length ∧
    floor_prices.get? (i % floor_prices.length) = some (curFloorPrice i) := by
  have h : i % floor_prices.length < floor_prices.length := Nat.mod_lt _ (by decide)
  exact ⟨h, List.get?_eq_get h⟩

/-- Claim C10: when a first page reports total > 0 but carries no items
field, the supply-check branch panics (`.unwrap()` on `None`) while the
buy-check branch, which matches the option conditionally, processes the same
shape and runs to completion (advancing the index by the wrapping
increment). -/
theorem C10_unwrap_asymmetry (env : Nat → ListResponse) (threshold i : Nat)
    (hdata : ∀ p, (env p).data = none) (h0 : (env 1).total ≠ 0) :
    supplyTick env threshold = (AggOutcome.unwrapNone 1, [1]) ∧
    buyTick env i = (BuyOutcome.completed, (i + 1) % u64Mod,
      1 :: List.range' 1 ((env 1).total / 50 + 1 - 1)) := by
  constructor
  · simp [supplyTick, h0, hdata 1]
  · simp [buyTick, h0, hdata 1, scanPage1, buyLoop_of_data_none env hdata]

/-- Claim C10 (witness): with total 60 and no items field anywhere, the
supply tick panics on page 1 while the buy tick completes and advances the
index from 4 to 5. -/
theorem C10_unwrap_asymmetry_witness :
    supplyTick envNoData 0 = (AggOutcome.unwrapNone 1, [1]) ∧
    buyTick envNoData 4 = (BuyOutcome.completed, 5, [1, 1]) :=
  C10_unwrap_asymmetry envNoData 0 4 (fun _ => rfl) (by decide)
